import Mathlib

/-!
Verification of the XIM input-method session manager (`src/lib.rs`).

The Rust code is a thin session layer over an external protocol engine
(xcb-imdkit).  We embed its state and operations shallowly:

* `Ic` mirrors the Rust struct `Ic { win: u32, ic: xcb_xic_t }`
  (`ic = 0` means the server has not yet created the context).
* `Callbacks` records whether each of the two handler slots
  (`commit_string`, `forward_event`) is installed; the handlers
  themselves are opaque closures, so an invocation of a handler is
  recorded as a `HandlerCall` value rather than executed.
* `Ime` mirrors the session struct: the optional `Ic` record plus the
  callback registry.  The raw engine handle and transport are external
  resources and carry no state relevant to the claims.
* Every call into the protocol engine is recorded as an `EngineCall`;
  results coming back from the engine (filter verdict, synchronous open
  verdict, negotiated encoding, codec output) are oracle parameters of
  the embedded functions, since the engine is an external collaborator.
* A Rust function that can terminate abnormally (the `unwrap` in the
  commit-string callback) is embedded with an `Option` result, `none`
  meaning the call does not return normally.
-/

/-- Raw windowing event: the `response_type` byte and the `event`
(target window) field read from the key press / key release layout. -/
structure GenericEvent where
  response_type : Nat
  event : Nat
  deriving DecidableEq, Repr

/-- Mirror of `struct Ic { win: u32, ic: xcb_xic_t }`. -/
structure Ic where
  win : Nat
  ic : Nat
  deriving DecidableEq, Repr

/-- Which of the two handler slots of `struct Callbacks` are installed. -/
structure Callbacks where
  commit_string : Bool
  forward_event : Bool
  deriving DecidableEq, Repr

/-- Mirror of `struct Ime` restricted to the state the claims concern:
the optional input-context record and the callback registry. -/
structure Ime where
  ic : Option Ic
  callbacks : Callbacks
  deriving DecidableEq, Repr

/-- Calls made into the protocol engine.  `setIcSpot` stands for the
nested-list build plus `xcb_xim_set_ic_values` with a spot-location
attribute; `setIcWindow` for `xcb_xim_set_ic_values` with
client-window / focus-window attributes; `createIc` for the
nested-list build plus `xcb_xim_create_ic`. -/
inductive EngineCall where
  | filterEvent (ev : GenericEvent)
  | openIm (win : Nat)
  | forwardEvent (ic : Nat) (ev : GenericEvent)
  | setIcWindow (ic : Nat) (win : Nat)
  | setIcSpot (ic : Nat) (x y : Int)
  | createIc (win : Nat)
  | setIcFocus (ic : Nat)
  deriving DecidableEq, Repr

/-- Invocations of the application-level handlers.  Text is modelled as
the byte sequence handed to the handler. -/
inductive HandlerCall where
  | commit (win : Nat) (text : List Nat)
  | forward (ev : GenericEvent)
  deriving DecidableEq, Repr

/-- Negotiated transport encoding, result of `xcb_xim_get_encoding`. -/
inductive Encoding where
  | utf8
  | compoundText
  | other
  deriving DecidableEq, Repr

/-- `XCB_KEY_PRESS` response type. -/
def XCB_KEY_PRESS : Nat := 2

/-- `XCB_KEY_RELEASE` response type. -/
def XCB_KEY_RELEASE : Nat := 3

/-- `event.response_type() & !0x80` : on a byte, `!0x80 = 0x7f`. -/
def keyMask (ev : GenericEvent) : Nat := ev.response_type &&& 0x7f

/-- State of a freshly constructed session (`Ime::new`): no input
context, no handlers installed. -/
def Ime.init : Ime := { ic := none, callbacks := { commit_string := false, forward_event := false } }

/-- `Ime::try_open_ic`.  `openResult` is the synchronous boolean
returned by `xcb_xim_open`.  Mirrors: early return when a record
already exists; otherwise insert the provisional record
`Ic { win, ic: 0 }`, call `xcb_xim_open`, and on synchronous failure
take the record back out. -/
def Ime.try_open_ic (openResult : Bool) (s : Ime) (win : Nat) : Ime × List EngineCall :=
  if s.ic.isSome then (s, [])
  else
    let s1 : Ime := { s with ic := some { win := win, ic := 0 } }
    if openResult then (s1, [EngineCall.openIm win])
    else ({ s1 with ic := none }, [EngineCall.openIm win])

/-- `Ime::set_ic_window`.  Mirrors: nothing happens when no record
exists; early return when the window is unchanged or the handle is
still 0; otherwise the stored window is rewritten and
`xcb_xim_set_ic_values` pushes the new client/focus window. -/
def Ime.set_ic_window (s : Ime) (win : Nat) : Ime × List EngineCall :=
  match s.ic with
  | none => (s, [])
  | some r =>
    if r.win = win ∨ r.ic = 0 then (s, [])
    else ({ s with ic := some { win := win, ic := r.ic } },
      [EngineCall.setIcWindow r.ic win])

/-- `Ime::process_event`.  `filterResult` is the verdict of
`xcb_xim_filter_event`; `openResult` is the synchronous verdict of
`xcb_xim_open` should `try_open_ic` be reached.  When the filter
consumes the event the source has no early return: the `if !...` body
is skipped and control falls through to the trailing `false`, so the
filtered branch yields false with the state untouched.  The function
invokes no application handler (the Rust body contains no handler
call), so its outputs are only the boolean, the new state, and the
engine calls. -/
def Ime.process_event (filterResult openResult : Bool) (s : Ime) (ev : GenericEvent) :
    Bool × Ime × List EngineCall :=
  if filterResult then (false, s, [EngineCall.filterEvent ev])
  else if keyMask ev = XCB_KEY_PRESS ∨ keyMask ev = XCB_KEY_RELEASE then
    let win := ev.event
    let p1 := s.set_ic_window win
    match p1.1.ic with
    | some r =>
      if r.ic = 0 then (false, p1.1, EngineCall.filterEvent ev :: p1.2)
      else (true, p1.1, EngineCall.filterEvent ev :: p1.2 ++ [EngineCall.forwardEvent r.ic ev])
    | none =>
      let p2 := p1.1.try_open_ic openResult win
      (false, p2.1, EngineCall.filterEvent ev :: p1.2 ++ p2.2)
  else (false, s, [EngineCall.filterEvent ev])

/-- `Ime::update_pos`.  Retargets first, then pushes the spot location
when a created record exists. -/
def Ime.update_pos (s : Ime) (win : Nat) (x y : Int) : Bool × Ime × List EngineCall :=
  let p1 := s.set_ic_window win
  match p1.1.ic with
  | some r =>
    if r.ic ≠ 0 then (true, p1.1, p1.2 ++ [EngineCall.setIcSpot r.ic x y])
    else (false, p1.1, p1.2)
  | none => (false, p1.1, p1.2)

/-- `Ime::set_commit_string_cb`: installs the commit handler. -/
def Ime.set_commit_string_cb (s : Ime) : Ime :=
  { s with callbacks := { s.callbacks with commit_string := true } }

/-- `Ime::set_forward_event_cb`: installs the forward handler. -/
def Ime.set_forward_event_cb (s : Ime) : Ime :=
  { s with callbacks := { s.callbacks with forward_event := true } }

/-- `create_ic_callback`: stores the handle returned by the server into
the record pointed to by the user-data token and sets input-context
focus to it. -/
def create_ic_callback (newIc : Nat) (r : Ic) : Ic × List EngineCall :=
  ({ r with ic := newIc }, [EngineCall.setIcFocus newIc])

/-- `open_callback`: issues the `create IC` request for the window of
the record pointed to by the user-data token; the record itself is not
mutated here. -/
def open_callback (r : Ic) : Ic × List EngineCall :=
  (r, [EngineCall.createIc r.win])

/-- The byte buffer assembled by `commit_string_callback`: for UTF-8
the `length + 1` bytes read beyond the input are its content plus the
terminating 0; for compound text the codec output (`codec`) plus the
terminating 0 when the codec succeeds, the single byte 0 on codec
failure; empty for any other encoding. -/
def commitBuf (enc : Encoding) (codec : Option (List Nat)) (input : List Nat) : List Nat :=
  match enc with
  | Encoding.utf8 => input ++ [0]
  | Encoding.compoundText =>
    match codec with
    | some u => u ++ [0]
    | none => [0]
  | Encoding.other => []

/-- Result of `CStr::from_bytes_with_nul_unchecked(buf).to_string_lossy()`:
on a non-empty buffer, the buffer minus its final (nul) byte; on the
empty buffer — which the code produces for any encoding other than
UTF-8 or compound text — `to_bytes` computes `len - 1` on 0 and the
extraction terminates abnormally, modelled as `none`. -/
def cstrContent (buf : List Nat) : Option (List Nat) :=
  if buf = [] then none else some buf.dropLast

/-- `commit_string_callback`.  Builds the buffer and extracts the text
(an abnormal termination, `none`, when the buffer is empty), then
unconditionally reads `ime.ic.as_ref().unwrap().win` (`none` when no
record exists) — both failures occur before the handler slot is read.
Otherwise the commit handler, when installed, receives the window and
text; the session state is never mutated. -/
def commit_string_callback (enc : Encoding) (codec : Option (List Nat))
    (input : List Nat) (s : Ime) : Option (Ime × List HandlerCall) :=
  match cstrContent (commitBuf enc codec input) with
  | none => none
  | some text =>
    match s.ic with
    | none => none
    | some r =>
      if s.callbacks.commit_string then some (s, [HandlerCall.commit r.win text])
      else some (s, [])

/-- `forward_event_callback`: delivers the raw key event verbatim to
the forward handler when installed; state is never mutated. -/
def forward_event_callback (ev : GenericEvent) (s : Ime) : Ime × List HandlerCall :=
  if s.callbacks.forward_event then (s, [HandlerCall.forward ev]) else (s, [])

/-- C1: contrary to the claim (and to the return contract the spec
states for `process_event`, under which a filter-consumed event is
consumed and must not be handled by the caller), when the engine
filter reports the event as fully consumed `process_event` returns
false: the source has no early return for that case and control falls
through to the trailing false.  The rest of the claim holds at every
such input: the state is unchanged (no retargeting), the only engine
call is the filter query itself (no forwarding), and no handler is
invoked (`process_event` produces no handler call in any branch). -/
theorem C1_filter_consumed_returns_false :
    ∀ (openResult : Bool) (s : Ime) (ev : GenericEvent),
      s.process_event true openResult ev = (false, s, [EngineCall.filterEvent ev]) := by
  intro openResult s ev
  simp [Ime.process_event]

/-- C2: an unfiltered key event, while the record is created
(handle not 0), is forwarded to the server under that handle and
`process_event` returns true. -/
theorem C2_created_forwards (openResult : Bool) (cb : Callbacks) (r : Ic) (ev : GenericEvent)
    (hk : keyMask ev = XCB_KEY_PRESS ∨ keyMask ev = XCB_KEY_RELEASE)
    (hh : r.ic ≠ 0) :
    (Ime.process_event false openResult { ic := some r, callbacks := cb } ev).1 = true ∧
    EngineCall.forwardEvent r.ic ev ∈
      (Ime.process_event false openResult { ic := some r, callbacks := cb } ev).2.2 := by
  by_cases hw : r.win = ev.event
  · simp [Ime.process_event, Ime.set_ic_window, hk, hw, hh]
  · simp [Ime.process_event, Ime.set_ic_window, hk, hw, hh]

/-- C2 witness: concrete created record, key press event. -/
theorem C2_created_forwards_witness :
    (keyMask { response_type := 2, event := 100 } = XCB_KEY_PRESS ∨
      keyMask { response_type := 2, event := 100 } = XCB_KEY_RELEASE) ∧
    (7 : Nat) ≠ 0 ∧
    ((Ime.process_event false true
        { ic := some { win := 100, ic := 7 },
          callbacks := { commit_string := false, forward_event := false } }
        { response_type := 2, event := 100 }).1 = true ∧
      EngineCall.forwardEvent 7 { response_type := 2, event := 100 } ∈
        (Ime.process_event false true
          { ic := some { win := 100, ic := 7 },
            callbacks := { commit_string := false, forward_event := false } }
          { response_type := 2, event := 100 }).2.2) :=
  ⟨by decide, by decide,
    C2_created_forwards true { commit_string := false, forward_event := false }
      { win := 100, ic := 7 } { response_type := 2, event := 100 } (by decide) (by decide)⟩

/-- C3: with no server response yet, the first unfiltered key event
(no record) stores the provisional record with the window of the event
and handle 0, issues the open request, and returns false; and every
unfiltered key event while the handle is still 0 returns false with
the state unchanged and nothing forwarded. -/
theorem C3_opening_returns_false (ev : GenericEvent)
    (hk : keyMask ev = XCB_KEY_PRESS ∨ keyMask ev = XCB_KEY_RELEASE) :
    (∀ cb : Callbacks,
      Ime.process_event false true { ic := none, callbacks := cb } ev =
        (false, { ic := some { win := ev.event, ic := 0 }, callbacks := cb },
          [EngineCall.filterEvent ev, EngineCall.openIm ev.event])) ∧
    (∀ (cb : Callbacks) (w : Nat) (openResult : Bool),
      Ime.process_event false openResult { ic := some { win := w, ic := 0 }, callbacks := cb } ev =
        (false, { ic := some { win := w, ic := 0 }, callbacks := cb },
          [EngineCall.filterEvent ev])) := by
  constructor
  · intro cb
    simp [Ime.process_event, Ime.set_ic_window, Ime.try_open_ic, hk]
  · intro cb w openResult
    simp [Ime.process_event, Ime.set_ic_window, hk]

/-- C3 witness: concrete key release event driven through both parts. -/
theorem C3_opening_returns_false_witness :
    (keyMask { response_type := 131, event := 55 } = XCB_KEY_PRESS ∨
      keyMask { response_type := 131, event := 55 } = XCB_KEY_RELEASE) ∧
    Ime.process_event false true
        { ic := none, callbacks := { commit_string := true, forward_event := true } }
        { response_type := 131, event := 55 } =
      (false, { ic := some { win := 55, ic := 0 },
                callbacks := { commit_string := true, forward_event := true } },
        [EngineCall.filterEvent { response_type := 131, event := 55 },
          EngineCall.openIm 55]) ∧
    Ime.process_event false false
        { ic := some { win := 55, ic := 0 },
          callbacks := { commit_string := true, forward_event := true } }
        { response_type := 131, event := 55 } =
      (false, { ic := some { win := 55, ic := 0 },
                callbacks := { commit_string := true, forward_event := true } },
        [EngineCall.filterEvent { response_type := 131, event := 55 }]) :=
  ⟨by decide,
    (C3_opening_returns_false { response_type := 131, event := 55 } (by decide)).1
      { commit_string := true, forward_event := true },
    (C3_opening_returns_false { response_type := 131, event := 55 } (by decide)).2
      { commit_string := true, forward_event := true } 55 false⟩

/-- C4: when `xcb_xim_open` reports failure synchronously,
`try_open_ic` discards the provisional record at once: the state is
back to no context, exactly as before the attempt, and a later key
event on the same window starts a fresh opening attempt (a new
provisional record and a new open request). -/
theorem C4_sync_open_failure (cb : Callbacks) (win : Nat) (ev : GenericEvent)
    (hk : keyMask ev = XCB_KEY_PRESS ∨ keyMask ev = XCB_KEY_RELEASE)
    (hw : ev.event = win) :
    Ime.try_open_ic false { ic := none, callbacks := cb } win =
      ({ ic := none, callbacks := cb }, [EngineCall.openIm win]) ∧
    Ime.process_event false true { ic := none, callbacks := cb } ev =
      (false, { ic := some { win := win, ic := 0 }, callbacks := cb },
        [EngineCall.filterEvent ev, EngineCall.openIm win]) := by
  constructor
  · simp [Ime.try_open_ic]
  · subst hw
    simp [Ime.process_event, Ime.set_ic_window, Ime.try_open_ic, hk]

/-- C4 witness: synchronous failure on window 42, then a retry. -/
theorem C4_sync_open_failure_witness :
    (keyMask { response_type := 3, event := 42 } = XCB_KEY_PRESS ∨
      keyMask { response_type := 3, event := 42 } = XCB_KEY_RELEASE) ∧
    ({ response_type := 3, event := 42 : GenericEvent }.event = 42) ∧
    (Ime.try_open_ic false
        { ic := none, callbacks := { commit_string := false, forward_event := true } } 42 =
      ({ ic := none, callbacks := { commit_string := false, forward_event := true } },
        [EngineCall.openIm 42]) ∧
    Ime.process_event false true
        { ic := none, callbacks := { commit_string := false, forward_event := true } }
        { response_type := 3, event := 42 } =
      (false, { ic := some { win := 42, ic := 0 },
                callbacks := { commit_string := false, forward_event := true } },
        [EngineCall.filterEvent { response_type := 3, event := 42 },
          EngineCall.openIm 42])) :=
  ⟨by decide, by decide,
    C4_sync_open_failure { commit_string := false, forward_event := true } 42
      { response_type := 3, event := 42 } (by decide) (by decide)⟩

/-- C5: retargeting is a no-op (state unchanged, no engine call) when
no record exists, when the requested window equals the stored window,
or when the handle is still 0; otherwise it rewrites the stored window
to the new value and issues exactly one set-IC-attributes call, and an
immediately repeated retarget to the same window is a no-op. -/
theorem C5_set_ic_window_cases (s : Ime) (win : Nat) :
    (s.ic = none → s.set_ic_window win = (s, [])) ∧
    (∀ r : Ic, s.ic = some r → r.win = win → s.set_ic_window win = (s, [])) ∧
    (∀ r : Ic, s.ic = some r → r.ic = 0 → s.set_ic_window win = (s, [])) ∧
    (∀ r : Ic, s.ic = some r → r.win ≠ win → r.ic ≠ 0 →
      s.set_ic_window win =
        ({ s with ic := some { win := win, ic := r.ic } },
          [EngineCall.setIcWindow r.ic win]) ∧
      Ime.set_ic_window { s with ic := some { win := win, ic := r.ic } } win =
        ({ s with ic := some { win := win, ic := r.ic } }, [])) := by
  refine ⟨?_, ?_, ?_, ?_⟩
  · intro h
    simp [Ime.set_ic_window, h]
  · intro r h hw
    simp [Ime.set_ic_window, h, hw]
  · intro r h h0
    simp [Ime.set_ic_window, h, h0]
  · intro r h hw h0
    constructor
    · simp [Ime.set_ic_window, h, hw, h0]
    · simp [Ime.set_ic_window]

/-- C5 witness: created record on window 10, retargeted to window 20,
then retargeted to 20 again. -/
theorem C5_set_ic_window_cases_witness :
    (some { win := 10, ic := 9 } = some { win := 10, ic := 9 : Ic }) ∧
    ((10 : Nat) ≠ 20) ∧ ((9 : Nat) ≠ 0) ∧
    (Ime.set_ic_window
        { ic := some { win := 10, ic := 9 },
          callbacks := { commit_string := false, forward_event := false } } 20 =
      ({ ic := some { win := 20, ic := 9 },
         callbacks := { commit_string := false, forward_event := false } },
        [EngineCall.setIcWindow 9 20]) ∧
    Ime.set_ic_window
        { ic := some { win := 20, ic := 9 },
          callbacks := { commit_string := false, forward_event := false } } 20 =
      ({ ic := some { win := 20, ic := 9 },
         callbacks := { commit_string := false, forward_event := false } }, [])) :=
  ⟨rfl, by decide, by decide,
    (C5_set_ic_window_cases
      { ic := some { win := 10, ic := 9 },
        callbacks := { commit_string := false, forward_event := false } } 20).2.2.2
      { win := 10, ic := 9 } rfl (by decide) (by decide)⟩

/-- C6: `update_pos` first retargets to the given window (its resulting
state is exactly the retargeted state); it returns true and pushes the
spot location exactly when a created record exists (handle not 0), and
returns false with no engine call at all when no record exists or the
handle is still 0. -/
theorem C6_update_pos (s : Ime) (win : Nat) (x y : Int) :
    (s.update_pos win x y).2.1 = (s.set_ic_window win).1 ∧
    (∀ r : Ic, s.ic = some r → r.ic ≠ 0 →
      (s.update_pos win x y).1 = true ∧
      EngineCall.setIcSpot r.ic x y ∈ (s.update_pos win x y).2.2) ∧
    (s.ic = none ∨ (∃ r : Ic, s.ic = some r ∧ r.ic = 0) →
      (s.update_pos win x y).1 = false ∧ (s.update_pos win x y).2.2 = []) := by
  refine ⟨?_, ?_, ?_⟩
  · rcases hic : s.ic with _ | r
    · simp [Ime.update_pos, Ime.set_ic_window, hic]
    · by_cases hw : r.win = win <;> by_cases h0 : r.ic = 0 <;>
        simp [Ime.update_pos, Ime.set_ic_window, hic, hw, h0]
  · intro r hic h0
    by_cases hw : r.win = win
    · simp [Ime.update_pos, Ime.set_ic_window, hic, hw, h0]
    · simp [Ime.update_pos, Ime.set_ic_window, hic, hw, h0]
  · rintro (hic | ⟨r, hic, h0⟩)
    · simp [Ime.update_pos, Ime.set_ic_window, hic]
    · simp [Ime.update_pos, Ime.set_ic_window, hic, h0]

/-- C6 witness: created record for window 100, spot update at (10, 20),
and the no-context case. -/
theorem C6_update_pos_witness :
    ((Ime.update_pos
        { ic := some { win := 100, ic := 5 },
          callbacks := { commit_string := false, forward_event := false } } 100 10 20).2.1 =
      (Ime.set_ic_window
        { ic := some { win := 100, ic := 5 },
          callbacks := { commit_string := false, forward_event := false } } 100).1) ∧
    ((5 : Nat) ≠ 0) ∧
    ((Ime.update_pos
        { ic := some { win := 100, ic := 5 },
          callbacks := { commit_string := false, forward_event := false } } 100 10 20).1 = true ∧
      EngineCall.setIcSpot 5 10 20 ∈
        (Ime.update_pos
          { ic := some { win := 100, ic := 5 },
            callbacks := { commit_string := false, forward_event := false } } 100 10 20).2.2) ∧
    ((Ime.update_pos
        { ic := none,
          callbacks := { commit_string := false, forward_event := false } } 100 10 20).1 = false ∧
      (Ime.update_pos
        { ic := none,
          callbacks := { commit_string := false, forward_event := false } } 100 10 20).2.2 = []) :=
  ⟨(C6_update_pos
      { ic := some { win := 100, ic := 5 },
        callbacks := { commit_string := false, forward_event := false } } 100 10 20).1,
    by decide,
    (C6_update_pos
      { ic := some { win := 100, ic := 5 },
        callbacks := { commit_string := false, forward_event := false } } 100 10 20).2.1
      { win := 100, ic := 5 } rfl (by decide),
    (C6_update_pos
      { ic := none,
        callbacks := { commit_string := false, forward_event := false } } 100 10 20).2.2
      (Or.inl rfl)⟩

/-- C7: in the commit-string callback, with a record present and the
commit handler installed, UTF-8 text is delivered to the handler
unchanged; compound text is delivered as the codec output; and when
the codec fails the handler receives the empty string while the
callback still returns normally. -/
theorem C7_commit_decoding (input u : List Nat) (r : Ic) (fe : Bool) :
    (∀ codec : Option (List Nat),
      commit_string_callback Encoding.utf8 codec input
          { ic := some r, callbacks := { commit_string := true, forward_event := fe } } =
        some ({ ic := some r, callbacks := { commit_string := true, forward_event := fe } },
          [HandlerCall.commit r.win input])) ∧
    commit_string_callback Encoding.compoundText (some u) input
        { ic := some r, callbacks := { commit_string := true, forward_event := fe } } =
      some ({ ic := some r, callbacks := { commit_string := true, forward_event := fe } },
        [HandlerCall.commit r.win u]) ∧
    commit_string_callback Encoding.compoundText none input
        { ic := some r, callbacks := { commit_string := true, forward_event := fe } } =
      some ({ ic := some r, callbacks := { commit_string := true, forward_event := fe } },
        [HandlerCall.commit r.win []]) := by
  refine ⟨?_, ?_, ?_⟩
  · intro codec
    simp [commit_string_callback, commitBuf, cstrContent]
  · simp [commit_string_callback, commitBuf, cstrContent]
  · simp [commit_string_callback, commitBuf, cstrContent]

/-- C8 counterexample: a delivery with the handler unset does not
always return normally.  With no current record the unwrap terminates
the commit callback abnormally; and with a record present but an
encoding other than UTF-8 or compound text, the C-string extraction
from the empty buffer terminates it abnormally before the handler
slot is even read.  The claim as stated is false at these inputs. -/
theorem C8_unset_handler_counterexample :
    commit_string_callback Encoding.utf8 none [72]
        { ic := none, callbacks := { commit_string := false, forward_event := false } } =
      none ∧
    commit_string_callback Encoding.other none [72]
        { ic := some { win := 1, ic := 2 },
          callbacks := { commit_string := false, forward_event := false } } =
      none := ⟨rfl, rfl⟩

/-- C8 amended: a forward-event delivery with the forward handler
unset, and a commit-string delivery with the commit handler unset
while a record exists and the negotiated encoding is UTF-8 or
compound text, are silently dropped: the callback returns normally,
invokes no handler, and leaves the state unchanged. -/
theorem C8_unset_handler_dropped :
    (∀ (codec : Option (List Nat)) (input : List Nat) (r : Ic) (fe : Bool),
      commit_string_callback Encoding.utf8 codec input
          { ic := some r, callbacks := { commit_string := false, forward_event := fe } } =
        some ({ ic := some r, callbacks := { commit_string := false, forward_event := fe } },
          []) ∧
      commit_string_callback Encoding.compoundText codec input
          { ic := some r, callbacks := { commit_string := false, forward_event := fe } } =
        some ({ ic := some r, callbacks := { commit_string := false, forward_event := fe } },
          [])) ∧
    (∀ (ev : GenericEvent) (ic : Option Ic) (cs : Bool),
      forward_event_callback ev
          { ic := ic, callbacks := { commit_string := cs, forward_event := false } } =
        ({ ic := ic, callbacks := { commit_string := cs, forward_event := false } }, [])) := by
  constructor
  · intro codec input r fe
    constructor
    · simp [commit_string_callback, commitBuf, cstrContent]
    · cases codec <;> simp [commit_string_callback, commitBuf, cstrContent]
  · intro ev ic cs
    simp [forward_event_callback]

/-- C10: the commit-string callback reads the window out of the current
record before looking at the handler slot, so it terminates abnormally
whenever no record exists — for every encoding, codec result, input and
handler configuration, including an unset commit handler (for an
encoding other than UTF-8 or compound text the abnormal termination is
the earlier empty-buffer extraction) — and a record being present makes
it return normally for the UTF-8 and compound-text encodings. -/
theorem C10_commit_requires_record :
    (∀ (enc : Encoding) (codec : Option (List Nat)) (input : List Nat) (cb : Callbacks),
      commit_string_callback enc codec input { ic := none, callbacks := cb } = none) ∧
    (∀ (codec : Option (List Nat)) (input : List Nat) (r : Ic) (cb : Callbacks),
      (commit_string_callback Encoding.utf8 codec input
        { ic := some r, callbacks := cb }).isSome ∧
      (commit_string_callback Encoding.compoundText codec input
        { ic := some r, callbacks := cb }).isSome) := by
  constructor
  · intro enc codec input cb
    cases enc <;> cases codec <;>
      simp [commit_string_callback, commitBuf, cstrContent]
  · intro codec input r cb
    constructor
    · by_cases h : cb.commit_string <;>
        simp [commit_string_callback, commitBuf, cstrContent, h]
    · by_cases h : cb.commit_string <;> cases codec <;>
        simp [commit_string_callback, commitBuf, cstrContent, h]

/-- Retargeting keeps the record present and never writes the handle. -/
theorem set_ic_window_keeps_handle (cb : Callbacks) (r : Ic) (win : Nat) :
    ∃ rr : Ic, ((Ime.set_ic_window { ic := some r, callbacks := cb } win).1).ic = some rr ∧
      rr.ic = r.ic := by
  by_cases hw : r.win = win ∨ r.ic = 0
  · exact ⟨r, by simp [Ime.set_ic_window, hw], rfl⟩
  · exact ⟨{ win := win, ic := r.ic }, by simp [Ime.set_ic_window, hw], rfl⟩

/-- Event processing keeps the record present and never writes the
handle. -/
theorem process_event_keeps_handle (fr op : Bool) (cb : Callbacks) (r : Ic)
    (ev : GenericEvent) :
    ∃ rr : Ic,
      ((Ime.process_event fr op { ic := some r, callbacks := cb } ev).2.1).ic = some rr ∧
      rr.ic = r.ic := by
  cases fr with
  | true => exact ⟨r, by simp [Ime.process_event], rfl⟩
  | false =>
    by_cases hk : keyMask ev = XCB_KEY_PRESS ∨ keyMask ev = XCB_KEY_RELEASE
    · by_cases hweq : r.win = ev.event <;> by_cases h0 : r.ic = 0
      · exact ⟨r, by simp [Ime.process_event, Ime.set_ic_window, hk, hweq, h0], rfl⟩
      · exact ⟨r, by simp [Ime.process_event, Ime.set_ic_window, hk, hweq, h0], rfl⟩
      · exact ⟨r, by simp [Ime.process_event, Ime.set_ic_window, hk, hweq, h0], rfl⟩
      · exact ⟨{ win := ev.event, ic := r.ic },
          by simp [Ime.process_event, Ime.set_ic_window, hk, hweq, h0], rfl⟩
    · exact ⟨r, by simp [Ime.process_event, hk], rfl⟩

/-- Spot updates keep the record present and never write the handle. -/
theorem update_pos_keeps_handle (cb : Callbacks) (r : Ic) (win : Nat) (x y : Int) :
    ∃ rr : Ic,
      ((Ime.update_pos { ic := some r, callbacks := cb } win x y).2.1).ic = some rr ∧
      rr.ic = r.ic := by
  by_cases hweq : r.win = win <;> by_cases h0 : r.ic = 0
  · exact ⟨r, by simp [Ime.update_pos, Ime.set_ic_window, hweq, h0], rfl⟩
  · exact ⟨r, by simp [Ime.update_pos, Ime.set_ic_window, hweq, h0], rfl⟩
  · exact ⟨r, by simp [Ime.update_pos, Ime.set_ic_window, hweq, h0], rfl⟩
  · exact ⟨{ win := win, ic := r.ic },
      by simp [Ime.update_pos, Ime.set_ic_window, hweq, h0], rfl⟩

/-- C9: on creation the session has no record; no operation other than
an unfiltered key event creates one (retarget, spot update, filtered
or non-key events, and both engine callbacks leave a record-free state
record-free); once a record exists every operation keeps exactly one
record alive for the rest of the session; and the context handle is
initialized to 0 by the opening step and written only by the
create-callback, never by event processing, retargeting or spot
updates. -/
theorem C9_single_context_invariant :
    Ime.init.ic = none ∧
    (∀ (cb : Callbacks) (win : Nat),
      Ime.set_ic_window { ic := none, callbacks := cb } win =
        ({ ic := none, callbacks := cb }, [])) ∧
    (∀ (cb : Callbacks) (win : Nat) (x y : Int),
      Ime.update_pos { ic := none, callbacks := cb } win x y =
        (false, { ic := none, callbacks := cb }, [])) ∧
    (∀ (op : Bool) (s : Ime) (ev : GenericEvent),
      (Ime.process_event true op s ev).2.1 = s) ∧
    (∀ (op : Bool) (s : Ime) (ev : GenericEvent),
      ¬(keyMask ev = XCB_KEY_PRESS ∨ keyMask ev = XCB_KEY_RELEASE) →
      (Ime.process_event false op s ev).2.1 = s) ∧
    (∀ (ev : GenericEvent) (s : Ime), (forward_event_callback ev s).1 = s) ∧
    (∀ (enc : Encoding) (codec : Option (List Nat)) (input : List Nat) (s : Ime)
        (t : Ime × List HandlerCall),
      commit_string_callback enc codec input s = some t → t.1 = s) ∧
    (∀ s : Ime, s.set_commit_string_cb.ic = s.ic ∧ s.set_forward_event_cb.ic = s.ic) ∧
    (∀ (fr op : Bool) (cb : Callbacks) (r : Ic) (ev : GenericEvent),
      ∃ rr : Ic,
        ((Ime.process_event fr op { ic := some r, callbacks := cb } ev).2.1).ic = some rr ∧
        rr.ic = r.ic) ∧
    (∀ (cb : Callbacks) (r : Ic) (win : Nat) (x y : Int),
      ∃ rr : Ic,
        ((Ime.update_pos { ic := some r, callbacks := cb } win x y).2.1).ic = some rr ∧
        rr.ic = r.ic) ∧
    (∀ (cb : Callbacks) (r : Ic) (win : Nat),
      ∃ rr : Ic,
        ((Ime.set_ic_window { ic := some r, callbacks := cb } win).1).ic = some rr ∧
        rr.ic = r.ic) ∧
    (∀ (cb : Callbacks) (win : Nat),
      ((Ime.try_open_ic true { ic := none, callbacks := cb } win).1).ic =
        some { win := win, ic := 0 }) ∧
    (∀ (newIc : Nat) (r : Ic),
      (create_ic_callback newIc r).1 = { win := r.win, ic := newIc }) := by
  refine ⟨rfl, ?_, ?_, ?_, ?_, ?_, ?_, ?_, ?_, ?_, ?_, ?_, ?_⟩
  · intro cb win
    simp [Ime.set_ic_window]
  · intro cb win x y
    simp [Ime.update_pos, Ime.set_ic_window]
  · intro op s ev
    simp [Ime.process_event]
  · intro op s ev hk
    simp [Ime.process_event, hk]
  · intro ev s
    by_cases h : s.callbacks.forward_event <;> simp [forward_event_callback, h]
  · intro enc codec input s t h
    simp only [commit_string_callback] at h
    rcases hbuf : cstrContent (commitBuf enc codec input) with _ | text <;> rw [hbuf] at h
    · simp at h
    · rcases hic : s.ic with _ | r <;> rw [hic] at h
      · simp at h
      · by_cases hcb : s.callbacks.commit_string <;> simp [hcb] at h <;>
          exact (congrArg Prod.fst h).symm
  · intro s
    exact ⟨rfl, rfl⟩
  · intro fr op cb r ev
    exact process_event_keeps_handle fr op cb r ev
  · intro cb r win x y
    exact update_pos_keeps_handle cb r win x y
  · intro cb r win
    exact set_ic_window_keeps_handle cb r win
  · intro cb win
    simp [Ime.try_open_ic]
  · intro newIc r
    rfl

/-- C9 witness: a non-key event leaves the fresh session without a
record, and a concrete commit delivery leaves a created session
unchanged. -/
theorem C9_single_context_invariant_witness :
    (Ime.process_event false true Ime.init { response_type := 4, event := 9 }).2.1 =
      Ime.init ∧
    (({ ic := some { win := 3, ic := 8 },
        callbacks := { commit_string := true, forward_event := false } } : Ime),
      [HandlerCall.commit 3 [65]]).1 =
      { ic := some { win := 3, ic := 8 },
        callbacks := { commit_string := true, forward_event := false } } :=
  ⟨C9_single_context_invariant.2.2.2.2.1 true Ime.init
      { response_type := 4, event := 9 } (by decide),
    C9_single_context_invariant.2.2.2.2.2.2.1 Encoding.utf8 none [65]
      { ic := some { win := 3, ic := 8 },
        callbacks := { commit_string := true, forward_event := false } }
      ({ ic := some { win := 3, ic := 8 },
         callbacks := { commit_string := true, forward_event := false } },
        [HandlerCall.commit 3 [65]]) (by decide)⟩
